import Mathlib

/-
Verification of the financial calculation and goal-forecasting core of the
pbf_advisor personal-finance dashboard (src/app.py).

Currency amounts and rates are embedded as rationals (ℚ).  Python code that
can raise (division by a zero denominator, summing a non-numeric dict value)
is embedded as Option- or branch-returning functions.  Dict values that may be
non-numeric are embedded by the PyVal type.
-/

namespace PBFAdvisor

/-- A Python dict value as seen by `sum`: either a number or a non-numeric
value (modelled by its string form). -/
inductive PyVal where
  | num (q : ℚ)
  | str (s : String)
deriving DecidableEq, Repr

/-- Whether a `PyVal` is numeric. -/
def PyVal.isNum : PyVal → Bool
  | .num _ => true
  | .str _ => false

/-- Python `sum` over a list of dict values: `some` of the numeric sum, or
`none` when a non-numeric value is encountered (Python raises `TypeError`). -/
def sumValues : List PyVal → Option ℚ
  | [] => some 0
  | .num q :: rest => (sumValues rest).map (fun s => q + s)
  | .str _ :: _ => none

/-- Embeds `calculate_savings_metrics` (src/app.py lines 365-373):
`savings = income - expenses`,
`savings_rate = (savings / income) * 100 if income > 0 else 0.0`. -/
def calculate_savings_metrics (income expenses : ℚ) : ℚ × ℚ :=
  let savings := income - expenses
  let savings_rate := if 0 < income then (savings / income) * 100 else 0
  (savings, savings_rate)

/-- Embeds `calculate_net_worth` (src/app.py lines 375-383): sums the asset
values and the liability values and returns their difference; any exception
(a non-numeric value in either map) is caught and `0.0` is returned. -/
def calculate_net_worth (assets liabilities : List (String × PyVal)) : ℚ :=
  match sumValues (assets.map Prod.snd), sumValues (liabilities.map Prod.snd) with
  | some total_assets, some total_liabilities => total_assets - total_liabilities
  | _, _ => 0

/-- Embeds the SIP calculation of `create_learning_ui` (src/app.py lines
986-990): `monthly_rate = sip_rate / 100 / 12`, `months = sip_years * 12`,
`future_value = sip_monthly * (((1 + monthly_rate)**months - 1) / monthly_rate)
* (1 + monthly_rate)`.  When `monthly_rate = 0` Python raises
`ZeroDivisionError`, embedded as `none`. -/
def sip_future_value (sip_monthly : ℚ) (sip_years : ℕ) (sip_rate : ℚ) : Option ℚ :=
  let monthly_rate := sip_rate / 100 / 12
  let months := sip_years * 12
  if monthly_rate = 0 then none
  else some (sip_monthly * (((1 + monthly_rate) ^ months - 1) / monthly_rate) * (1 + monthly_rate))

/-- Embeds the EMI calculation of `create_learning_ui` (src/app.py lines
1017-1021): `monthly_rate = emi_interest / 100 / 12`, `months = emi_tenure * 12`,
`emi = emi_principal * monthly_rate * (1 + monthly_rate)**months
/ ((1 + monthly_rate)**months - 1)`.  When the denominator is zero Python
raises `ZeroDivisionError`, embedded as `none`. -/
def emi_calc (emi_principal emi_interest : ℚ) (emi_tenure : ℕ) : Option ℚ :=
  let monthly_rate := emi_interest / 100 / 12
  let months := emi_tenure * 12
  if (1 + monthly_rate) ^ months - 1 = 0 then none
  else some (emi_principal * monthly_rate * (1 + monthly_rate) ^ months / ((1 + monthly_rate) ^ months - 1))

/-- Modelled from the spec: `total_interest = emi*months - principal` and
`total_payment = emi*months`.  The source UI (src/app.py lines 1017-1021)
computes and displays only the EMI itself; the totals appear only in the
spec, so they are modelled from its words. -/
def emi_totals (principal e : ℚ) (months : ℕ) : ℚ × ℚ :=
  (e * months - principal, e * months)

/-- Number of days in a month of the proleptic Gregorian calendar, as
enforced by Python `datetime`. -/
def days_in_month (year month : ℕ) : ℕ :=
  if month = 2 then
    if (year % 4 = 0 ∧ year % 100 ≠ 0) ∨ year % 400 = 0 then 29 else 28
  else if month = 4 ∨ month = 6 ∨ month = 9 ∨ month = 11 then 30 else 31

/-- Splits a character list on the dash character. -/
def splitDashes : List Char → List (List Char)
  | [] => [[]]
  | c :: rest =>
    if c = '-' then [] :: splitDashes rest
    else
      match splitDashes rest with
      | [] => [[c]]
      | x :: xs => (c :: x) :: xs

/-- Decimal value of a digit string. -/
def digitsToNat (l : List Char) : ℕ :=
  l.foldl (fun acc c => 10 * acc + (c.toNat - 48)) 0

/-- Embeds `validate_date` (src/app.py lines 357-363):
`datetime.strptime(date_str, "%Y-%m-%d")` succeeds exactly on strings
`Y-M-D` where `Y` is four digits (year at least 1), `M` is one or two digits
in 1..12, and `D` is one or two digits in 1..days_in_month. -/
def validate_date (date_str : String) : Bool :=
  match splitDashes date_str.data with
  | [y, m, d] =>
    decide (y.length = 4) && y.all Char.isDigit &&
    decide (1 ≤ m.length ∧ m.length ≤ 2) && m.all Char.isDigit &&
    decide (1 ≤ d.length ∧ d.length ≤ 2) && d.all Char.isDigit &&
    decide (1 ≤ digitsToNat y) &&
    decide (1 ≤ digitsToNat m ∧ digitsToNat m ≤ 12) &&
    decide (1 ≤ digitsToNat d
      ∧ digitsToNat d ≤ days_in_month (digitsToNat y) (digitsToNat m))
  | _ => false

/-- A savings goal as stored in `state.financial_data['goals']`
(src/app.py lines 898-904). -/
structure Goal where
  name : String
  target : ℚ
  deadline : String
  saved : ℚ
  created : String
deriving DecidableEq, Repr, Inhabited

/-- An investment as stored in `state.financial_data['investments']`
(src/app.py lines 778-786). -/
structure Investment where
  type : String
  name : String
  amount : ℚ
  date : String
  current_value : ℚ
  ticker : String
  notes : String
deriving DecidableEq, Repr, Inhabited

/-- The slice of `state.financial_data` touched by the goal and investment
operations. -/
structure FinancialData where
  goals : List Goal
  investments : List Investment
  savings : ℚ
deriving DecidableEq, Repr, Inhabited

/-- Embeds the add-goal branch of `create_savings_ui` (src/app.py lines
890-907): reject when a field is falsy (`all([...])`), the deadline fails
`validate_date`, or the amount is non-positive; otherwise append a goal with
`saved = 0.0` and `created = today`. -/
def add_goal (s : FinancialData) (goal_name : String) (goal_amount : ℚ)
    (goal_deadline today : String) : FinancialData :=
  if goal_name = "" ∨ goal_amount = 0 ∨ goal_deadline = "" then s
  else if ¬ validate_date goal_deadline then s
  else if goal_amount ≤ 0 then s
  else { s with goals := s.goals ++ [⟨goal_name, goal_amount, goal_deadline, 0, today⟩] }

/-- Embeds the update-savings branch of `create_savings_ui` (src/app.py
lines 930-944): reject a non-positive amount; otherwise add the amount to
the selected goal's `saved` and to the overall savings figure. -/
def update_goal_savings (s : FinancialData) (selected_goal : String)
    (add_amount : ℚ) : FinancialData :=
  if add_amount ≤ 0 then s
  else
    { s with
      goals := s.goals.map (fun g =>
        if g.name = selected_goal then { g with saved := g.saved + add_amount } else g),
      savings := s.savings + add_amount }

/-- Embeds the add-investment branch of `create_investments_ui` (src/app.py
lines 769-788): reject when a field is falsy, the date fails
`validate_date`, or the amount is non-positive; otherwise append an
investment whose `current_value` equals its `amount`. -/
def add_investment (s : FinancialData) (inv_type inv_name : String)
    (inv_amount : ℚ) (inv_date inv_ticker inv_notes : String) : FinancialData :=
  if inv_type = "" ∨ inv_name = "" ∨ inv_amount = 0 ∨ inv_date = "" then s
  else if ¬ validate_date inv_date then s
  else if inv_amount ≤ 0 then s
  else { s with investments :=
    s.investments ++ [⟨inv_type, inv_name, inv_amount, inv_date, inv_amount, inv_ticker, inv_notes⟩] }

/-- Embeds the update-value branch of `create_investments_ui` (src/app.py
lines 811-825): reject a non-positive value; otherwise overwrite the
selected investment's `current_value`. -/
def update_investment_value (s : FinancialData) (selected : String)
    (new_value : ℚ) : FinancialData :=
  if new_value ≤ 0 then s
  else
    { s with investments := s.investments.map (fun inv =>
        if inv.name = selected then { inv with current_value := new_value } else inv) }

/-- Error raised by the validated calculation API of the spec. -/
inductive CalcError where
  | validationError
deriving DecidableEq, Repr

/-- Modelled from the spec: the validated SIP future-value operation of the
calculation API.  It is absent from src/app.py, which holds only the
unvalidated inline expression in `create_learning_ui`; per the spec it
rejects a non-positive contribution, non-positive years or a negative rate
with a `ValidationError`, and special-cases a zero monthly rate. -/
def sip_future_value_checked (monthly_contribution : ℚ) (years : ℤ)
    (annual_rate_percent : ℚ) : Except CalcError ℚ :=
  if monthly_contribution ≤ 0 ∨ years ≤ 0 ∨ annual_rate_percent < 0 then
    .error .validationError
  else
    let monthly_rate := annual_rate_percent / 100 / 12
    let months := years.toNat * 12
    if monthly_rate = 0 then .ok (monthly_contribution * months)
    else .ok (monthly_contribution * (((1 + monthly_rate) ^ months - 1) / monthly_rate)
      * (1 + monthly_rate))

/-- Modelled from the spec: the validated EMI operation of the calculation
API, absent from src/app.py (same rejection rule, zero-rate special case
`principal / months`). -/
def emi_checked (principal annual_rate_percent : ℚ) (tenure_years : ℤ) :
    Except CalcError ℚ :=
  if principal ≤ 0 ∨ tenure_years ≤ 0 ∨ annual_rate_percent < 0 then
    .error .validationError
  else
    let monthly_rate := annual_rate_percent / 100 / 12
    let months := tenure_years.toNat * 12
    if monthly_rate = 0 then .ok (principal / months)
    else .ok (principal * monthly_rate * (1 + monthly_rate) ^ months
      / ((1 + monthly_rate) ^ months - 1))

/-- One month's row of an amortization schedule, per the spec. -/
structure AmortRecord where
  month_index : ℕ
  emi : ℚ
  principal_component : ℚ
  interest_component : ℚ
  remaining_balance : ℚ
deriving DecidableEq, Repr

/-- Iterative generation of the amortization rows, per the spec:
`interest = balance * monthly_rate`, `principal = emi - interest`,
`balance -= principal` floored at 0. -/
def amort_rows (e monthly_rate : ℚ) : ℕ → ℕ → ℚ → List AmortRecord
  | 0, _, _ => []
  | k + 1, idx, bal =>
    let interest_component := bal * monthly_rate
    let principal_component := e - interest_component
    let remaining := max (bal - principal_component) 0
    ⟨idx, e, principal_component, interest_component, remaining⟩
      :: amort_rows e monthly_rate k (idx + 1) remaining

/-- Modelled from the spec: the validated amortization-schedule operation of
the calculation API, absent from src/app.py (same rejection rule). -/
def amortization_schedule_checked (principal annual_rate_percent : ℚ)
    (tenure_years : ℤ) : Except CalcError (List AmortRecord) :=
  if principal ≤ 0 ∨ tenure_years ≤ 0 ∨ annual_rate_percent < 0 then
    .error .validationError
  else
    let monthly_rate := annual_rate_percent / 100 / 12
    let months := tenure_years.toNat * 12
    let e := if monthly_rate = 0 then principal / months
      else principal * monthly_rate * (1 + monthly_rate) ^ months
        / ((1 + monthly_rate) ^ months - 1)
    .ok (amort_rows e monthly_rate months 1 principal)

/-- Result of the goal forecaster, per the spec. -/
structure ForecastResult where
  required_monthly : ℚ
  completion_probability : ℚ
  months_left : ℤ
deriving DecidableEq, Repr

/-- Modelled from the spec: months remaining until the deadline,
`max(floor(days_between(now_date, deadline_date) / 30), 1)`.  Dates are
modelled as integer day numbers, so `days_between now deadline` is
`deadline - now`, and Python floor division is `Int.fdiv`. -/
def months_left (now_date deadline_date : ℤ) : ℤ :=
  max ((deadline_date - now_date).fdiv 30) 1

/-- Modelled from the spec: `forecast_goal` is absent from src/app.py.
Per the spec it returns `required_monthly = (target - saved) / months_left`
and the capped heuristic `completion_probability` when `target > 0`, and a
zero-valued result when `target <= 0`; `months_left` is exposed because the
spec's boundary property observes it. -/
def forecast_goal (target saved : ℚ) (deadline_date now_date : ℤ) :
    ForecastResult :=
  let ml := months_left now_date deadline_date
  if target ≤ 0 then ⟨0, 0, ml⟩
  else
    ⟨(target - saved) / (ml : ℚ),
     min ((saved / target) * 100 + (100 - (saved / target) * 100) / (ml : ℚ)) 100,
     ml⟩

/-- The state-mutating operations of the application that touch goals or
investments. -/
inductive Op where
  | addGoal (goal_name : String) (goal_amount : ℚ) (goal_deadline today : String)
  | updateGoalSavings (selected_goal : String) (add_amount : ℚ)
  | addInvestment (inv_type inv_name : String) (inv_amount : ℚ)
      (inv_date inv_ticker inv_notes : String)
  | updateInvestmentValue (selected : String) (new_value : ℚ)
deriving DecidableEq, Repr

/-- Runs one operation on the financial data. -/
def apply_op : Op → FinancialData → FinancialData
  | .addGoal n a d t, s => add_goal s n a d t
  | .updateGoalSavings sel amt, s => update_goal_savings s sel amt
  | .addInvestment ty n a d tk nt, s => add_investment s ty n a d tk nt
  | .updateInvestmentValue sel v, s => update_investment_value s sel v

end PBFAdvisor

namespace PBFAdvisor

lemma sumValues_map_num (l : List ℚ) :
    sumValues (l.map PyVal.num) = some l.sum := by
  induction l with
  | nil => rfl
  | cons q rest ih => simp [sumValues, ih]

lemma sumValues_none_of_nonnum {l : List PyVal} (h : ∃ v ∈ l, v.isNum = false) :
    sumValues l = none := by
  induction l with
  | nil => rcases h with ⟨v, hv, _⟩; cases hv
  | cons x rest ih =>
    rcases h with ⟨v, hv, hnum⟩
    cases x with
    | num q =>
      rcases List.mem_cons.mp hv with rfl | hmem
      · simp [PyVal.isNum] at hnum
      · simp [sumValues, ih ⟨v, hmem, hnum⟩]
    | str s => rfl

/-- C4: `calculate_savings_metrics` returns `savings = income - expenses`
(possibly negative, never an error) and
`savings_rate = (savings / income) * 100` when `income > 0`, else `0`. -/
theorem savings_metrics_correct (income expenses : ℚ) :
    (calculate_savings_metrics income expenses).1 = income - expenses
    ∧ (0 < income →
        (calculate_savings_metrics income expenses).2 = ((income - expenses) / income) * 100)
    ∧ (¬ 0 < income → (calculate_savings_metrics income expenses).2 = 0) := by
  refine ⟨rfl, fun h => ?_, fun h => ?_⟩
  · simp [calculate_savings_metrics, if_pos h]
  · simp [calculate_savings_metrics, if_neg h]

/-- Witness for C4 at income 200, expenses 350 (negative savings accepted). -/
theorem savings_metrics_correct_witness :
    (calculate_savings_metrics 200 350).1 = 200 - 350
    ∧ (calculate_savings_metrics 200 350).2 = ((200 - 350) / 200) * 100 :=
  ⟨(savings_metrics_correct 200 350).1,
   (savings_metrics_correct 200 350).2.1 (by norm_num)⟩

/-- C5: on numeric maps, `calculate_net_worth` returns the sum of the asset
values minus the sum of the liability values, and on two empty maps it
returns 0. -/
theorem net_worth_correct (assets liabilities : List (String × ℚ)) :
    calculate_net_worth
        (assets.map (fun p => (p.1, PyVal.num p.2)))
        (liabilities.map (fun p => (p.1, PyVal.num p.2)))
      = (assets.map Prod.snd).sum - (liabilities.map Prod.snd).sum
    ∧ calculate_net_worth [] [] = 0 := by
  constructor
  · have ha : sumValues ((assets.map (fun p => (p.1, PyVal.num p.2))).map Prod.snd)
        = some (assets.map Prod.snd).sum := by
      rw [List.map_map]
      have hc : (Prod.snd ∘ fun p : String × ℚ => (p.1, PyVal.num p.2))
          = PyVal.num ∘ Prod.snd := rfl
      rw [hc, ← List.map_map, sumValues_map_num]
    have hl : sumValues ((liabilities.map (fun p => (p.1, PyVal.num p.2))).map Prod.snd)
        = some (liabilities.map Prod.snd).sum := by
      rw [List.map_map]
      have hc : (Prod.snd ∘ fun p : String × ℚ => (p.1, PyVal.num p.2))
          = PyVal.num ∘ Prod.snd := rfl
      rw [hc, ← List.map_map, sumValues_map_num]
    simp only [calculate_net_worth, ha, hl]
  · simp [calculate_net_worth, sumValues]

/-- C6: if either map contains a non-numeric value, `calculate_net_worth`
does not propagate the exception and returns 0. -/
theorem net_worth_nonnum_zero (assets liabilities : List (String × PyVal))
    (h : (∃ p ∈ assets, p.2.isNum = false) ∨ (∃ p ∈ liabilities, p.2.isNum = false)) :
    calculate_net_worth assets liabilities = 0 := by
  rcases h with h | h
  · have : sumValues (assets.map Prod.snd) = none := by
      apply sumValues_none_of_nonnum
      rcases h with ⟨p, hp, hnum⟩
      exact ⟨p.2, List.mem_map.mpr ⟨p, hp, rfl⟩, hnum⟩
    rcases hll : sumValues (liabilities.map Prod.snd) with _ | q <;>
      simp [calculate_net_worth, this, hll]
  · have : sumValues (liabilities.map Prod.snd) = none := by
      apply sumValues_none_of_nonnum
      rcases h with ⟨p, hp, hnum⟩
      exact ⟨p.2, List.mem_map.mpr ⟨p, hp, rfl⟩, hnum⟩
    rcases hla : sumValues (assets.map Prod.snd) with _ | q <;>
      simp [calculate_net_worth, this, hla]

/-- Witness for C6: a single non-numeric asset value yields net worth 0. -/
theorem net_worth_nonnum_zero_witness :
    calculate_net_worth [("gold", PyVal.str "lots")] [("loan", PyVal.num 40)] = 0 :=
  net_worth_nonnum_zero _ _ (Or.inl ⟨("gold", PyVal.str "lots"), by simp, rfl⟩)

/-- C1: for positive years and a positive monthly rate, the SIP calculation
returns the annuity-due value
`monthly * (((1+monthly_rate)^months - 1) / monthly_rate) * (1+monthly_rate)`
with `monthly_rate = rate/100/12` and `months = years*12`; at
`monthly = 5000`, `years = 10`, `rate = 12` the value is within 1 of
1,161,695. -/
theorem sip_correct :
    (∀ (m r : ℚ) (y : ℕ), 0 < r / 100 / 12 → 0 < y →
      sip_future_value m y r
        = some (m * (((1 + r / 100 / 12) ^ (y * 12) - 1) / (r / 100 / 12)) * (1 + r / 100 / 12)))
    ∧ (sip_future_value 5000 10 12).isSome = true
    ∧ |(sip_future_value 5000 10 12).getD 0 - 1161695| < 1 := by
  refine ⟨fun m r y hr _hy => ?_, ?_, ?_⟩
  · simp only [sip_future_value]
    rw [if_neg (ne_of_gt hr)]
  · simp [sip_future_value]
  · have hv : sip_future_value 5000 10 12
        = some (5000 * (((1 + 12 / 100 / 12) ^ (10 * 12) - 1) / (12 / 100 / 12)) * (1 + 12 / 100 / 12)) := by
      simp only [sip_future_value]
      norm_num
    rw [hv]
    simp only [Option.getD_some]
    rw [abs_lt]
    constructor <;> norm_num

/-- Witness for C1 at monthly 5000, years 10, annual rate 12 percent. -/
theorem sip_correct_witness :
    sip_future_value 5000 10 12
      = some (5000 * (((1 + 12 / 100 / 12) ^ (10 * 12) - 1) / (12 / 100 / 12)) * (1 + 12 / 100 / 12)) :=
  sip_correct.1 5000 12 10 (by norm_num) (by norm_num)

/-- C2: for positive principal, positive tenure and a positive monthly rate,
the EMI calculation returns
`principal * monthly_rate * (1+monthly_rate)^months / ((1+monthly_rate)^months - 1)`,
and the totals are `total_interest = emi*months - principal`,
`total_payment = emi*months`. -/
theorem emi_correct (p r : ℚ) (t : ℕ) (_hp : 0 < p) (hr : 0 < r / 100 / 12)
    (ht : 0 < t) :
    emi_calc p r t
      = some (p * (r / 100 / 12) * (1 + r / 100 / 12) ^ (t * 12)
          / ((1 + r / 100 / 12) ^ (t * 12) - 1))
    ∧ emi_totals p ((emi_calc p r t).getD 0) (t * 12)
      = ((emi_calc p r t).getD 0 * (t * 12) - p, (emi_calc p r t).getD 0 * (t * 12)) := by
  have h1 : (1 : ℚ) < 1 + r / 100 / 12 := by linarith
  have hpow : (1 : ℚ) < (1 + r / 100 / 12) ^ (t * 12) :=
    one_lt_pow₀ h1 (by positivity)
  have hne : (1 + r / 100 / 12) ^ (t * 12) - 1 ≠ 0 := sub_ne_zero.mpr (ne_of_gt hpow)
  constructor
  · simp only [emi_calc]
    rw [if_neg hne]
  · simp only [emi_totals, Prod.mk.injEq]
    push_cast
    exact ⟨rfl, rfl⟩

/-- Witness for C2 at principal 1,000,000, annual rate 12 percent, tenure
10 years. -/
theorem emi_correct_witness :
    (0 : ℚ) < 1000000 ∧
    emi_calc 1000000 12 10
      = some (1000000 * ((12 : ℚ) / 100 / 12) * (1 + (12 : ℚ) / 100 / 12) ^ (10 * 12)
          / ((1 + (12 : ℚ) / 100 / 12) ^ (10 * 12) - 1)) :=
  ⟨by norm_num, (emi_correct 1000000 12 10 (by norm_num) (by norm_num) (by norm_num)).1⟩

/-- C3 (code bug): at a zero annual rate, the source SIP and EMI expressions
divide by zero (`ZeroDivisionError`, embedded as `none`) instead of returning
`monthly * months` resp. `principal / months` as the spec requires. -/
theorem zero_rate_divides_by_zero :
    sip_future_value 5000 10 0 = none ∧ emi_calc 1000000 0 10 = none := by
  constructor
  · simp [sip_future_value]
  · simp [emi_calc]

lemma add_goal_goals (s : FinancialData) (n : String) (a : ℚ) (d t : String) :
    (add_goal s n a d t).goals = s.goals
    ∨ (add_goal s n a d t).goals = s.goals ++ [⟨n, a, d, 0, t⟩] := by
  unfold add_goal
  split_ifs <;> simp

lemma add_investment_goals (s : FinancialData) (ty n : String) (a : ℚ)
    (d tk nt : String) : (add_investment s ty n a d tk nt).goals = s.goals := by
  unfold add_investment
  split_ifs <;> rfl

lemma update_investment_value_goals (s : FinancialData) (sel : String) (v : ℚ) :
    (update_investment_value s sel v).goals = s.goals := by
  unfold update_investment_value
  split_ifs <;> rfl

/-- C9: a goal's `saved` field is 0 at creation, never decreases under any
operation, and changes only under a deposit of a strictly positive amount. -/
theorem goal_saved_monotone (s : FinancialData) (op : Op) (i : ℕ)
    (h : i < s.goals.length) :
    (∀ (n : String) (a : ℚ) (d t : String) (g : Goal),
        g ∈ (apply_op (.addGoal n a d t) s).goals → g ∈ s.goals ∨ g.saved = 0)
    ∧ ∃ h2 : i < (apply_op op s).goals.length,
        (s.goals.get ⟨i, h⟩).saved ≤ ((apply_op op s).goals.get ⟨i, h2⟩).saved
        ∧ (((apply_op op s).goals.get ⟨i, h2⟩).saved ≠ (s.goals.get ⟨i, h⟩).saved →
            ∃ sel amt, op = Op.updateGoalSavings sel amt ∧ 0 < amt) := by
  constructor
  · intro n a d t g hg
    rcases add_goal_goals s n a d t with he | he
    · rw [apply_op, he] at hg
      exact Or.inl hg
    · rw [apply_op, he] at hg
      rcases List.mem_append.mp hg with hmem | hnew
      · exact Or.inl hmem
      · right
        rcases List.mem_singleton.mp hnew with rfl
        rfl
  · cases op with
    | addGoal n a d t =>
      rcases add_goal_goals s n a d t with he | he <;>
        rw [apply_op, he]
      · exact ⟨h, le_refl _, fun hne => absurd rfl hne⟩
      · refine ⟨by simpa using Nat.lt_of_lt_of_le h (Nat.le_add_right _ _), ?_, ?_⟩
        · simp only [List.get_eq_getElem, List.getElem_append_left h]
          exact le_refl _
        · simp only [List.get_eq_getElem, List.getElem_append_left h]
          exact fun hne => absurd rfl hne
    | updateGoalSavings sel amt =>
      by_cases hamt : amt ≤ 0
      · have he : apply_op (Op.updateGoalSavings sel amt) s = s := by
          simp [apply_op, update_goal_savings, hamt]
        rw [he]
        exact ⟨h, le_refl _, fun hne => absurd rfl hne⟩
      · have hlen : (apply_op (Op.updateGoalSavings sel amt) s).goals.length
            = s.goals.length := by
          simp [apply_op, update_goal_savings, hamt]
        refine ⟨hlen ▸ h, ?_⟩
        have hget : (apply_op (Op.updateGoalSavings sel amt) s).goals.get ⟨i, hlen ▸ h⟩
            = (if (s.goals.get ⟨i, h⟩).name = sel
                then { s.goals.get ⟨i, h⟩ with saved := (s.goals.get ⟨i, h⟩).saved + amt }
                else s.goals.get ⟨i, h⟩) := by
          simp [apply_op, update_goal_savings, hamt]
        rw [hget]
        push_neg at hamt
        by_cases hname : (s.goals.get ⟨i, h⟩).name = sel
        · rw [if_pos hname]
          exact ⟨le_add_of_nonneg_right (le_of_lt hamt),
            fun _ => ⟨sel, amt, rfl, hamt⟩⟩
        · rw [if_neg hname]
          exact ⟨le_refl _, fun hne => absurd rfl hne⟩
    | addInvestment ty n a d tk nt =>
      have he : (apply_op (Op.addInvestment ty n a d tk nt) s).goals = s.goals :=
        add_investment_goals s ty n a d tk nt
      refine ⟨he ▸ h, ?_, ?_⟩
      · simp [he]
      · intro hne
        exact absurd (by simp [he]) hne
    | updateInvestmentValue sel v =>
      have he : (apply_op (Op.updateInvestmentValue sel v) s).goals = s.goals :=
        update_investment_value_goals s sel v
      refine ⟨he ▸ h, ?_, ?_⟩
      · simp [he]
      · intro hne
        exact absurd (by simp [he]) hne

/-- Concrete state for the C9 witness: one goal with 5 already saved. -/
def wState : FinancialData :=
  ⟨[⟨"car", 100, "2026-01-01", 5, "2025-01-01"⟩], [], 5⟩

/-- Concrete operation for the C9 witness: deposit 10 into the goal. -/
def wOp : Op := Op.updateGoalSavings "car" 10

/-- Witness for C9 on a one-goal state and a deposit of 10. -/
theorem goal_saved_monotone_witness :
    (∀ (n : String) (a : ℚ) (d t : String) (g : Goal),
        g ∈ (apply_op (.addGoal n a d t) wState).goals → g ∈ wState.goals ∨ g.saved = 0)
    ∧ ∃ h2 : 0 < (apply_op wOp wState).goals.length,
        (wState.goals.get ⟨0, by decide⟩).saved
          ≤ ((apply_op wOp wState).goals.get ⟨0, h2⟩).saved
        ∧ (((apply_op wOp wState).goals.get ⟨0, h2⟩).saved
              ≠ (wState.goals.get ⟨0, by decide⟩).saved →
            ∃ sel amt, wOp = Op.updateGoalSavings sel amt ∧ 0 < amt) :=
  goal_saved_monotone wState wOp 0 (by decide)

/-- C10: whenever the add-investment operation accepts its input (all fields
non-empty, a valid date, a positive amount), the investment it appends has
`current_value` equal to its `amount`. -/
theorem investment_created_value_eq_amount
    (s : FinancialData) (ty n : String) (a : ℚ) (d tk nt : String)
    (hty : ty ≠ "") (hn : n ≠ "") (hd : d ≠ "") (hdate : validate_date d = true)
    (ha : 0 < a) :
    (apply_op (.addInvestment ty n a d tk nt) s).investments
      = s.investments ++ [⟨ty, n, a, d, a, tk, nt⟩]
    ∧ ((⟨ty, n, a, d, a, tk, nt⟩ : Investment)).current_value
      = ((⟨ty, n, a, d, a, tk, nt⟩ : Investment)).amount := by
  constructor
  · simp only [apply_op, add_investment]
    rw [if_neg (by push_neg; exact ⟨hty, hn, ne_of_gt ha, hd⟩)]
    rw [if_neg (by simp [hdate])]
    rw [if_neg (not_le.mpr ha)]
  · rfl

/-- Concrete state for the C10 witness: no investments yet. -/
def wInvState : FinancialData := ⟨[], [], 0⟩

/-- Witness for C10 with a 1000-unit stock purchase on a valid date. -/
theorem investment_created_value_eq_amount_witness :
    (apply_op (.addInvestment "Stocks" "RIL" 1000 "2025-06-15" "RELIANCE.NS" "notes") wInvState).investments
      = wInvState.investments
        ++ [⟨"Stocks", "RIL", 1000, "2025-06-15", 1000, "RELIANCE.NS", "notes"⟩]
    ∧ ((⟨"Stocks", "RIL", 1000, "2025-06-15", 1000, "RELIANCE.NS", "notes"⟩ : Investment)).current_value
      = ((⟨"Stocks", "RIL", 1000, "2025-06-15", 1000, "RELIANCE.NS", "notes"⟩ : Investment)).amount :=
  investment_created_value_eq_amount wInvState "Stocks" "RIL" 1000 "2025-06-15"
    "RELIANCE.NS" "notes" (by decide) (by decide) (by decide) (by decide) (by norm_num)

/-- C7: each validated calculator rejects a non-positive principal or
contribution, non-positive years or tenure, or a negative rate with a
`ValidationError` instead of clamping or swallowing it. -/
theorem calculators_reject_invalid (m p r : ℚ) (y t : ℤ) :
    (m ≤ 0 ∨ y ≤ 0 ∨ r < 0 →
      sip_future_value_checked m y r = .error .validationError)
    ∧ (p ≤ 0 ∨ t ≤ 0 ∨ r < 0 →
      emi_checked p r t = .error .validationError)
    ∧ (p ≤ 0 ∨ t ≤ 0 ∨ r < 0 →
      amortization_schedule_checked p r t = .error .validationError) := by
  refine ⟨fun h => ?_, fun h => ?_, fun h => ?_⟩
  · simp only [sip_future_value_checked]
    rw [if_pos h]
  · simp only [emi_checked]
    rw [if_pos h]
  · simp only [amortization_schedule_checked]
    rw [if_pos h]

/-- Witness for C7: a negative contribution and a negative principal are
rejected by all three validated calculators. -/
theorem calculators_reject_invalid_witness :
    sip_future_value_checked (-5) 10 12 = .error .validationError
    ∧ emi_checked (-1) 12 10 = .error .validationError
    ∧ amortization_schedule_checked (-1) 12 10 = .error .validationError :=
  ⟨(calculators_reject_invalid (-5) (-1) 12 10 10).1 (Or.inl (by norm_num)),
   (calculators_reject_invalid (-5) (-1) 12 10 10).2.1 (Or.inl (by norm_num)),
   (calculators_reject_invalid (-5) (-1) 12 10 10).2.2 (Or.inl (by norm_num))⟩

/-- Counterexample to C8 as stated: at `target = 0` (with `saved = 5` and a
deadline 3 days in the past) the months-left formula still gives 1, but the
returned `required_monthly` is the zero-valued 0, not
`(target - saved) / months_left = -5`. -/
theorem forecast_goal_zero_target_counterexample :
    (forecast_goal 0 5 (-3) 0).months_left = 1
    ∧ (forecast_goal 0 5 (-3) 0).required_monthly
        ≠ ((0 : ℚ) - 5) / (((forecast_goal 0 5 (-3) 0).months_left : ℤ) : ℚ) := by
  have hml : months_left 0 (-3) = 1 := by decide
  constructor
  · simp [forecast_goal, hml]
  · simp [forecast_goal, hml]

/-- C8 (amended): for every positive target, `forecast_goal` computes
`months_left = max(floor((deadline - now) / 30), 1)`, which is at least 1
and equals 1 for a deadline in the past, and returns
`required_monthly = (target - saved) / months_left`. -/
theorem forecast_goal_months_left (target saved : ℚ) (deadline now : ℤ)
    (htarget : 0 < target) :
    (forecast_goal target saved deadline now).months_left
        = max ((deadline - now).fdiv 30) 1
    ∧ 1 ≤ (forecast_goal target saved deadline now).months_left
    ∧ (deadline < now → (forecast_goal target saved deadline now).months_left = 1)
    ∧ (forecast_goal target saved deadline now).required_monthly
        = (target - saved) / (((forecast_goal target saved deadline now).months_left : ℤ) : ℚ) := by
  have hnotle : ¬ target ≤ 0 := not_le.mpr htarget
  have hml : (forecast_goal target saved deadline now).months_left
      = months_left now deadline := by
    simp [forecast_goal, hnotle]
  refine ⟨?_, ?_, ?_, ?_⟩
  · rw [hml]; rfl
  · rw [hml]; exact le_max_right _ _
  · intro hpast
    rw [hml]
    have hneg : deadline - now < 0 := by omega
    have hfd : (deadline - now).fdiv 30 < 0 :=
      Int.fdiv_neg' hneg (by norm_num)
    exact max_eq_right (by omega)
  · rw [hml]
    simp [forecast_goal, hnotle, months_left]

/-- Witness for C8 (amended) at target 100, saved 20, deadline 90 days out. -/
theorem forecast_goal_months_left_witness :
    (forecast_goal 100 20 90 0).months_left = max ((90 - 0 : ℤ).fdiv 30) 1
    ∧ 1 ≤ (forecast_goal 100 20 90 0).months_left
    ∧ ((90 : ℤ) < 0 → (forecast_goal 100 20 90 0).months_left = 1)
    ∧ (forecast_goal 100 20 90 0).required_monthly
        = ((100 : ℚ) - 20) / (((forecast_goal 100 20 90 0).months_left : ℤ) : ℚ) :=
  forecast_goal_months_left 100 20 90 0 (by norm_num)

end PBFAdvisor
